import Mathlib

/-!
Shallow embedding of the micromovies2 vault server and apigateway HTTP binder
(src/vault/cmd/server.go and src/apigateway/http_server.go).

Part 1 models the lifecycle coordinator of vault/cmd/server.go main
(lines 68-111).  main creates an unbuffered channel errChan and launches
three goroutines:

  - a signal watcher: signal.Notify for SIGINT and SIGTERM, then
    errChan <- fmt.Errorf, formatting the received signal (lines 70-74);
  - an HTTP goroutine: errChan <- http.ListenAndServe(httpAddr, router),
    and ListenAndServe always returns a non-nil error (lines 88-94);
  - a gRPC goroutine: if net.Listen fails it sends the error and returns,
    otherwise it sends the result of gRPCServer.Serve (lines 96-108);

then main blocks on one receive (line 111), logs the received value at
fatal severity with zerolog, and zerolog Fatal calls os.Exit, which
terminates every goroutine.  The receive, the fatal log and the exit are
one atomic transition here: between them no channel operation can complete,
because the single receiver is gone.  The channel is unbuffered, so a send
only completes by rendezvous with that one receive.
-/

/-- A value carried on errChan: a Go error, with none standing for nil. -/
abbrev GoErr := Option String

/-- The two signals the watcher subscribes to (server.go line 72). -/
inductive Sig
  | SIGINT
  | SIGTERM
  deriving DecidableEq

/-- The Go string rendering of each signal, as produced by fmt.Errorf. -/
def sigName : Sig → String
  | .SIGINT => "interrupt"
  | .SIGTERM => "terminated"

/-- Control state of the signal-watcher goroutine (server.go lines 70-74). -/
inductive SignalSt
  | notifyWait
  | sending (e : GoErr)
  | finished
  deriving DecidableEq

/-- Control state of the HTTP goroutine (server.go lines 88-94). -/
inductive HttpSt
  | serving
  | sending (e : GoErr)
  | finished
  deriving DecidableEq

/-- Control state of the gRPC goroutine (server.go lines 96-108). -/
inductive GrpcSt
  | listening
  | serving
  | sending (e : GoErr)
  | finished
  deriving DecidableEq

/-- Control state of main after launching the goroutines (line 111):
one blocking receive, then fatal log plus process exit. -/
inductive MainSt
  | recv
  | exited (e : GoErr)
  deriving DecidableEq

/-- Global state of the process: the three tasks, main, the list of values
consumed from errChan in order, and per-task counters of completed sends. -/
structure SysState where
  sig : SignalSt
  http : HttpSt
  grpc : GrpcSt
  coord : MainSt
  received : List GoErr
  sentSig : Nat
  sentHttp : Nat
  sentGrpc : Nat
  deriving DecidableEq

/-- The state right after main has launched the three goroutines. -/
def initState : SysState :=
  { sig := .notifyWait, http := .serving, grpc := .listening, coord := .recv
    received := [], sentSig := 0, sentHttp := 0, sentGrpc := 0 }

/-- One transition of the system.  Every rule requires the coordinator to be
alive (coord = recv): once main has received, logged fatally and exited, the
process is gone and nothing steps.  A send on the unbuffered errChan completes
only by rendezvous with the single receive of main. -/
inductive Step : SysState → SysState → Prop
  | sigArrive (s : SysState) (sg : Sig) :
      s.coord = .recv → s.sig = .notifyWait →
      Step s { s with sig := .sending (some (sigName sg)) }
  | httpReturn (s : SysState) (msg : String) :
      s.coord = .recv → s.http = .serving →
      Step s { s with http := .sending (some msg) }
  | grpcListenFail (s : SysState) (msg : String) :
      s.coord = .recv → s.grpc = .listening →
      Step s { s with grpc := .sending (some msg) }
  | grpcListenOk (s : SysState) :
      s.coord = .recv → s.grpc = .listening →
      Step s { s with grpc := .serving }
  | grpcServeReturn (s : SysState) (e : GoErr) :
      s.coord = .recv → s.grpc = .serving →
      Step s { s with grpc := .sending e }
  | recvSig (s : SysState) (e : GoErr) :
      s.coord = .recv → s.sig = .sending e →
      Step s { s with sig := .finished, coord := .exited e,
                      received := s.received ++ [e], sentSig := s.sentSig + 1 }
  | recvHttp (s : SysState) (e : GoErr) :
      s.coord = .recv → s.http = .sending e →
      Step s { s with http := .finished, coord := .exited e,
                      received := s.received ++ [e], sentHttp := s.sentHttp + 1 }
  | recvGrpc (s : SysState) (e : GoErr) :
      s.coord = .recv → s.grpc = .sending e →
      Step s { s with grpc := .finished, coord := .exited e,
                      received := s.received ++ [e], sentGrpc := s.sentGrpc + 1 }

/-- Reachability: the reflexive-transitive closure of Step. -/
inductive Reaches : SysState → SysState → Prop
  | refl (s : SysState) : Reaches s s
  | tail {a b c : SysState} : Reaches a b → Step b c → Reaches a c

/-- The value main has logged at fatal severity, if it has exited. -/
def fatalLogged (s : SysState) : Option GoErr :=
  match s.coord with
  | .recv => none
  | .exited e => some e

/-- Channel invariant: while main is still receiving nothing has been consumed
and no send has completed; once main has exited with value e, exactly that one
value was consumed and exactly one send, by exactly one task, completed. -/
def ChanInv (s : SysState) : Prop :=
  (s.coord = .recv →
    s.received = [] ∧ s.sentSig = 0 ∧ s.sentHttp = 0 ∧ s.sentGrpc = 0) ∧
  (∀ e, s.coord = .exited e →
    s.received = [e] ∧ s.sentSig + s.sentHttp + s.sentGrpc = 1)

theorem chanInv_init : ChanInv initState := by
  constructor
  · intro _; exact ⟨rfl, rfl, rfl, rfl⟩
  · intro e h; simp [initState] at h

theorem chanInv_step {s t : SysState} (hstep : Step s t) (hinv : ChanInv s) :
    ChanInv t := by
  obtain ⟨hrecv, hex⟩ := hinv
  cases hstep with
  | sigArrive sg h1 h2 =>
      exact ⟨fun h => hrecv h, fun e h => hex e h⟩
  | httpReturn msg h1 h2 =>
      exact ⟨fun h => hrecv h, fun e h => hex e h⟩
  | grpcListenFail msg h1 h2 =>
      exact ⟨fun h => hrecv h, fun e h => hex e h⟩
  | grpcListenOk h1 h2 =>
      exact ⟨fun h => hrecv h, fun e h => hex e h⟩
  | grpcServeReturn e h1 h2 =>
      exact ⟨fun h => hrecv h, fun e h => hex e h⟩
  | recvSig e h1 h2 =>
      obtain ⟨hr, hs1, hs2, hs3⟩ := hrecv h1
      refine ⟨fun h => by simp at h, fun e' h => ?_⟩
      simp only [MainSt.exited.injEq] at h
      subst h
      simp [hr, hs1, hs2, hs3]
  | recvHttp e h1 h2 =>
      obtain ⟨hr, hs1, hs2, hs3⟩ := hrecv h1
      refine ⟨fun h => by simp at h, fun e' h => ?_⟩
      simp only [MainSt.exited.injEq] at h
      subst h
      simp [hr, hs1, hs2, hs3]
  | recvGrpc e h1 h2 =>
      obtain ⟨hr, hs1, hs2, hs3⟩ := hrecv h1
      refine ⟨fun h => by simp at h, fun e' h => ?_⟩
      simp only [MainSt.exited.injEq] at h
      subst h
      simp [hr, hs1, hs2, hs3]

theorem reaches_chanInv {s : SysState} (h : Reaches initState s) : ChanInv s := by
  induction h with
  | refl => exact chanInv_init
  | tail _ hstep ih => exact chanInv_step hstep ih

/-- Once main has exited, the whole process is terminated: no transition is
possible, in particular neither listener keeps serving. -/
theorem exited_halts {s : SysState} {e : GoErr} (hex : s.coord = .exited e) :
    ∀ t, ¬ Step s t := by
  intro t hstep
  cases hstep <;> simp_all

/-- Progress rank of the HTTP goroutine: it only ever moves forward. -/
def httpRank : HttpSt → Nat
  | .serving => 0
  | .sending _ => 1
  | .finished => 2

/-- Progress rank of the gRPC goroutine: it only ever moves forward. -/
def grpcRank : GrpcSt → Nat
  | .listening => 0
  | .serving => 1
  | .sending _ => 2
  | .finished => 3

/-- Progress rank of the signal watcher. -/
def sigRank : SignalSt → Nat
  | .notifyWait => 0
  | .sending _ => 1
  | .finished => 2

/-- No task is ever retried or restarted: every transition is monotone in each
task rank, so a listener that has stopped serving never serves again. -/
theorem step_rank_mono {s t : SysState} (hstep : Step s t) :
    sigRank s.sig ≤ sigRank t.sig ∧ httpRank s.http ≤ httpRank t.http ∧
      grpcRank s.grpc ≤ grpcRank t.grpc := by
  cases hstep <;> simp_all [sigRank, httpRank, grpcRank]

/-- A concrete run: SIGINT arrives while everything is still starting up. -/
def exAfterSignal : SysState :=
  { initState with sig := .sending (some (sigName .SIGINT)) }

/-- The run continues: main receives the signal error, logs it fatally, exits. -/
def exAfterExit : SysState :=
  { exAfterSignal with sig := .finished, coord := .exited (some "interrupt"),
                       received := [some "interrupt"], sentSig := 1 }

theorem step_exAfterSignal : Step initState exAfterSignal :=
  Step.sigArrive initState .SIGINT rfl rfl

theorem step_exAfterExit : Step exAfterSignal exAfterExit :=
  Step.recvSig exAfterSignal (some "interrupt") rfl rfl

theorem reaches_exAfterExit : Reaches initState exAfterExit :=
  Reaches.tail (Reaches.tail (Reaches.refl initState) step_exAfterSignal)
    step_exAfterExit

/-- C1: for every termination trigger (HTTP listener error, RPC listener bind
or serve failure, or a received SIGINT/SIGTERM), the first such event is the
one delivered through the completion channel (it is the sole consumed value),
it is logged at fatal severity, and the process terminates: no further
transition exists, so no listener is retried or restarted and the other
transport is not kept serving; moreover every transition of the system is
monotone in task progress, so no rule ever restarts a listener. -/
theorem lifecycle_first_event_terminates (s : SysState) (e : GoErr)
    (hr : Reaches initState s) (hex : s.coord = .exited e) :
    s.received = [e] ∧ fatalLogged s = some e ∧ (∀ t, ¬ Step s t) ∧
      (∀ t u, Step t u → sigRank t.sig ≤ sigRank u.sig ∧
        httpRank t.http ≤ httpRank u.http ∧ grpcRank t.grpc ≤ grpcRank u.grpc) := by
  obtain ⟨_, hx⟩ := reaches_chanInv hr
  refine ⟨(hx e hex).1, ?_, exited_halts hex, fun t u h => step_rank_mono h⟩
  simp [fatalLogged, hex]

/-- C1 witness: the run in which SIGINT fires first, instantiated concretely. -/
theorem lifecycle_first_event_terminates_witness :
    exAfterExit.received = [some "interrupt"] ∧
      fatalLogged exAfterExit = some (some "interrupt") ∧
      (∀ t, ¬ Step exAfterExit t) ∧
      (∀ t u, Step t u → sigRank t.sig ≤ sigRank u.sig ∧
        httpRank t.http ≤ httpRank u.http ∧ grpcRank t.grpc ≤ grpcRank u.grpc) :=
  lifecycle_first_event_terminates exAfterExit (some "interrupt")
    reaches_exAfterExit rfl

/-- C2: each of the three background tasks completes at most one send into the
shared completion channel, at most one value is ever consumed from it, and as
soon as the single blocking read of the coordinator fires the process exits:
exactly one value was consumed and no further step (in particular no further
read) exists. -/
theorem errChan_single_consumption (s : SysState) (hr : Reaches initState s) :
    s.sentSig ≤ 1 ∧ s.sentHttp ≤ 1 ∧ s.sentGrpc ≤ 1 ∧ s.received.length ≤ 1 ∧
      (∀ e, s.coord = .exited e → s.received.length = 1 ∧ ∀ t, ¬ Step s t) := by
  obtain ⟨hrecv, hx⟩ := reaches_chanInv hr
  cases hc : s.coord with
  | recv =>
      obtain ⟨hr0, h1, h2, h3⟩ := hrecv hc
      exact ⟨by omega, by omega, by omega, by simp [hr0],
        fun e he => absurd he (by simp)⟩
  | exited e =>
      obtain ⟨hr1, hsum⟩ := hx e hc
      exact ⟨by omega, by omega, by omega, by simp [hr1],
        fun e' he => ⟨by simp [hr1], exited_halts (hc.trans he)⟩⟩

/-- C2 witness: the same concrete SIGINT run, instantiated. -/
theorem errChan_single_consumption_witness :
    exAfterExit.sentSig ≤ 1 ∧ exAfterExit.sentHttp ≤ 1 ∧
      exAfterExit.sentGrpc ≤ 1 ∧ exAfterExit.received.length ≤ 1 ∧
      (∀ e, exAfterExit.coord = .exited e →
        exAfterExit.received.length = 1 ∧ ∀ t, ¬ Step exAfterExit t) :=
  errChan_single_consumption exAfterExit reaches_exAfterExit

/-!
Part 2: metric construction (server.go lines 45-63) and the middleware chain
built in main (lines 65-67).  The go-kit prometheus constructors are modelled
by their observable configuration: the option block and the label names they
were given.  The vault package itself (NewService, LoggingMiddleware,
InstrumentingMiddleware) is not under src/, so the middleware bodies are
modelled from the spec; the construction order of the chain is taken from
server.go lines 65-67, which are under src/.
-/

/-- The option block handed to a prometheus counter or summary constructor. -/
structure PromOpts where
  nspace : String
  subsystem : String
  name : String
  help : String
  deriving DecidableEq

/-- A constructed (go-kit wrapped) prometheus counter: its options and the
label names it was declared with. -/
structure PromCounter where
  opts : PromOpts
  labelNames : List String
  deriving DecidableEq

/-- A constructed (go-kit wrapped) prometheus summary. -/
structure PromSummary where
  opts : PromOpts
  labelNames : List String
  deriving DecidableEq

/-- kitprometheus.NewCounterFrom registers and returns a counter declared with
the given options and label names. -/
def NewCounterFrom (o : PromOpts) (labels : List String) : PromCounter :=
  ⟨o, labels⟩

/-- kitprometheus.NewSummaryFrom registers and returns a summary declared with
the given options and label names. -/
def NewSummaryFrom (o : PromOpts) (labels : List String) : PromSummary :=
  ⟨o, labels⟩

/-- server.go line 45. -/
def fieldKeys : List String := ["method", "error"]

/-- server.go lines 46-51. -/
def requestCount : PromCounter :=
  NewCounterFrom
    ⟨"my_group", "vault_service", "request_count", "Number of requests received."⟩
    fieldKeys

/-- server.go lines 52-57. -/
def requestLatency : PromSummary :=
  NewSummaryFrom
    ⟨"my_group", "vault_service", "request_latency_microseconds",
      "Total duration of requests in microseconds."⟩
    fieldKeys

/-- server.go lines 58-63: declared with no label names. -/
def countResult : PromSummary :=
  NewSummaryFrom
    ⟨"my_group", "vault_service", "count_result", "The result of each count method."⟩
    []

/-- Observable events performed during one call through the service stack, in
order.  enter and leave mark a decorator taking control on the way in and
giving it back on the way out. -/
inductive Ev
  | enter (layer method : String)
  | leave (layer method : String)
  | capRun (method : String)
  | logRecord (method : String) (err : Option String)
  | counterInc (counter : String) (labelVals : List (String × String))
  | observe (summary : String) (labelVals : List (String × String))
  deriving DecidableEq

/-- A capability-shaped value (interface with Hash and Validate): each
operation returns its result, its error, and the ordered list of observable
events the call performed. -/
structure Service where
  hash : String → (String × Option String) × List Ev
  validate : String → String → (Bool × Option String) × List Ev

/-- The opaque business capability, out of scope per the spec: only its
results matter, as a function of the inputs. -/
structure CapImpl where
  hashRes : String → String × Option String
  validateRes : String → String → Bool × Option String

/-- Modelled from the spec: vault.NewService (not under src/) returns the base
Capability, which executes the business operation and nothing else. -/
def NewService (impl : CapImpl) : Service where
  hash p := (impl.hashRes p, [.capRun "hash"])
  validate p h := (impl.validateRes p h, [.capRun "validate"])

/-- Modelled from the spec: vault.LoggingMiddleware (not under src/) wraps a
capability-shaped value; for each call it notes the start time on entry,
delegates, and after the underlying call returns emits one structured log
record with the method name and the final error, without altering the return
value.  The zerolog logger only selects where records are written, so it is
not a parameter here. -/
def LoggingMiddleware (next : Service) : Service where
  hash p :=
    let r := next.hash p
    (r.1, .enter "logging" "hash" :: r.2 ++
      [.logRecord "hash" r.1.2, .leave "logging" "hash"])
  validate p h :=
    let r := next.validate p h
    (r.1, .enter "logging" "validate" :: r.2 ++
      [.logRecord "validate" r.1.2, .leave "logging" "validate"])

/-- Label values attached by the instrumenting decorator: the method name and
whether an error is present. -/
def methodLabels (m : String) (err : Option String) : List (String × String) :=
  [("method", m), ("error", if err.isSome then "true" else "false")]

/-- Modelled from the spec: vault.InstrumentingMiddleware (not under src/)
wraps a capability-shaped value; for each call it starts timing on entry,
delegates, and in an always-run-on-exit block increments the request counter
labelled by method and error presence, records the latency into the latency
summary with the same labels, and records the domain-specific numeric result
into the unlabelled summary, without altering the return value. -/
def InstrumentingMiddleware (rc : PromCounter) (rl : PromSummary)
    (cr : PromSummary) (next : Service) : Service where
  hash p :=
    let r := next.hash p
    (r.1, .enter "instrumenting" "hash" :: r.2 ++
      [.counterInc rc.opts.name (methodLabels "hash" r.1.2),
       .observe rl.opts.name (methodLabels "hash" r.1.2),
       .observe cr.opts.name [],
       .leave "instrumenting" "hash"])
  validate p h :=
    let r := next.validate p h
    (r.1, .enter "instrumenting" "validate" :: r.2 ++
      [.counterInc rc.opts.name (methodLabels "validate" r.1.2),
       .observe rl.opts.name (methodLabels "validate" r.1.2),
       .observe cr.opts.name [],
       .leave "instrumenting" "validate"])

/-- The composed service exactly as built in server.go lines 65-67:
svc := vault.NewService(); svc = LoggingMiddleware around it;
svc = InstrumentingMiddleware around that. -/
def composedService (impl : CapImpl) : Service :=
  InstrumentingMiddleware requestCount requestLatency countResult
    (LoggingMiddleware (NewService impl))

/-- C5: the composed service wraps the Capability innermost, then Logging,
then Instrumenting, so on every call (either method, any outcome) the
last-wrapped Instrumenting decorator produces the first event on the way in
and the last event on the way out, with Logging strictly inside it and the
Capability innermost: stack discipline. -/
theorem middleware_stack_discipline (impl : CapImpl) (p d : String) :
    ((composedService impl).hash p).2 =
      [.enter "instrumenting" "hash", .enter "logging" "hash", .capRun "hash",
       .logRecord "hash" (impl.hashRes p).2, .leave "logging" "hash",
       .counterInc "request_count" (methodLabels "hash" (impl.hashRes p).2),
       .observe "request_latency_microseconds"
         (methodLabels "hash" (impl.hashRes p).2),
       .observe "count_result" [], .leave "instrumenting" "hash"] ∧
    ((composedService impl).validate p d).2 =
      [.enter "instrumenting" "validate", .enter "logging" "validate",
       .capRun "validate", .logRecord "validate" (impl.validateRes p d).2,
       .leave "logging" "validate",
       .counterInc "request_count" (methodLabels "validate" (impl.validateRes p d).2),
       .observe "request_latency_microseconds"
         (methodLabels "validate" (impl.validateRes p d).2),
       .observe "count_result" [], .leave "instrumenting" "validate"] ∧
    ((composedService impl).hash p).1 = impl.hashRes p ∧
    ((composedService impl).validate p d).1 = impl.validateRes p d :=
  ⟨rfl, rfl, rfl, rfl⟩

/-- Number of events in a trace satisfying a predicate. -/
def countEv (p : Ev → Bool) (tr : List Ev) : Nat := (tr.filter p).length

/-- An increment of the request counter whose method label is m. -/
def isReqCountInc (m : String) : Ev → Bool
  | .counterInc n lvs => n == "request_count" && lvs.head? == some ("method", m)
  | _ => false

/-- An observation of the latency summary whose method label is m. -/
def isLatencyObs (m : String) : Ev → Bool
  | .observe n lvs =>
      n == "request_latency_microseconds" && lvs.head? == some ("method", m)
  | _ => false

/-- C7: the instrumenting metrics are constructed with label names exactly
method and error for the request counter and the latency summary and with no
label names for count_result (server.go lines 45-63); and every call to the
composed service, for either method and for any outcome of the capability,
performs exactly one increment of the request counter for that method and
exactly one observation of the latency summary for that method: never 0,
never 2. -/
theorem instrumenting_metrics_per_call (impl : CapImpl) (p d : String) :
    requestCount.labelNames = ["method", "error"] ∧
    requestLatency.labelNames = ["method", "error"] ∧
    countResult.labelNames = [] ∧
    countEv (isReqCountInc "hash") ((composedService impl).hash p).2 = 1 ∧
    countEv (isLatencyObs "hash") ((composedService impl).hash p).2 = 1 ∧
    countEv (isReqCountInc "validate") ((composedService impl).validate p d).2 = 1 ∧
    countEv (isLatencyObs "validate") ((composedService impl).validate p d).2 = 1 :=
  ⟨rfl, rfl, rfl, rfl, rfl, rfl, rfl⟩

/-!
Part 3: per-transport tracing (server.go lines 88-108), the two routers
(server.go lines 90-93 and apigateway/http_server.go lines 11-14), and the
startup order of main together with initJaeger (server.go lines 28-131).
-/

/-- Trace events at a server boundary. -/
inductive TraceEv
  | spanStart (op : String)
  | spanFinish (op : String)
  deriving DecidableEq

/-- Modelled from the spec: the opentracing unary server interceptor installed
at the gRPC boundary (server.go line 105) starts a span named for the server
boundary, runs the handler with that span active, and finishes the span when
the call completes, regardless of outcome; the call result passes through
unchanged. -/
def opentracingUnaryServerInterceptor {Req Resp : Type}
    (handler : Req → Resp × Option String) (op : String) (req : Req) :
    (Resp × Option String) × List TraceEv :=
  let r := handler req
  (r, [.spanStart op, .spanFinish op])

/-- An option passed to grpc.NewServer; the string tags which interceptor. -/
inductive GrpcServerOption
  | unaryInterceptor (interceptorName : String)
  deriving DecidableEq

/-- server.go line 105: the gRPC server is constructed with exactly one
option, the opentracing unary server interceptor. -/
def gRPCServerOptions : List GrpcServerOption :=
  [.unaryInterceptor "grpc_opentracing.UnaryServerInterceptor"]

/-- The kind of handler installed on a route of the vault HTTP router. -/
inductive VaultHandlerKind
  | promhttpHandler
  | tracedHandler (name : String)
  deriving DecidableEq

/-- Whether a handler is wrapped in any tracing decoration. -/
def VaultHandlerKind.isTraced : VaultHandlerKind → Bool
  | .tracedHandler _ => true
  | _ => false

/-- A route of an httprouter router. -/
structure VaultRoute where
  verb : String
  path : String
  handler : VaultHandlerKind
  deriving DecidableEq

/-- server.go lines 90-93: the vault HTTP router is built with exactly one
route, GET /metrics with promhttp.Handler, and no tracing decoration. -/
def vaultRouter : List VaultRoute :=
  [⟨"GET", "/metrics", .promhttpHandler⟩]

/-- C6: tracing is applied per-transport at the RPC boundary only: the gRPC
server is constructed with the opentracing unary server interceptor as its
only option; that interceptor starts a span and finishes it when the call
completes, for any handler and hence regardless of outcome, passing the
result through unchanged; and the HTTP router of the vault server carries no
tracing decoration on any of its routes. -/
theorem tracing_rpc_boundary_only {Req Resp : Type}
    (handler : Req → Resp × Option String) (op : String) (req : Req) :
    gRPCServerOptions =
      [.unaryInterceptor "grpc_opentracing.UnaryServerInterceptor"] ∧
    (opentracingUnaryServerInterceptor handler op req).1 = handler req ∧
    (opentracingUnaryServerInterceptor handler op req).2 =
      [.spanStart op, .spanFinish op] ∧
    (∀ r ∈ vaultRouter, r.handler.isTraced = false) :=
  ⟨rfl, rfl, rfl, by decide⟩

/-- The package selectors a file may legally reference: the names bound by
its imports.  apigateway/http_server.go lines 3-8 import httprouter,
net/http, encoding/json and promhttp. -/
def apigatewayImportedNames : List String :=
  ["httprouter", "http", "json", "promhttp"]

/-- The package selector actually written in the metrics line of Register
(apigateway/http_server.go line 13). -/
def registerMetricsSelectorPkg : String := "promttp"

/-- A route as Register writes it: verb, path, and the package and function
of the handler expression. -/
structure ApigatewayRoute where
  verb : String
  path : String
  handlerPkg : String
  handlerFn : String
  deriving DecidableEq

/-- apigateway/http_server.go lines 11-14: the two registrations exactly as
written in Register. -/
def registerRoutes : List ApigatewayRoute :=
  [⟨"POST", "/v1/login", "apigateway", "HandleLoginPost"⟩,
   ⟨"GET", "/metrics", "promttp", "Handler"⟩]

/-- C8: the vault server does register promhttp.Handler on GET /metrics, but
the metrics registration of apigateway Register names the package selector
promttp, which is not bound by any import of the file (the import is
promhttp), so the reference is unresolved: the package cannot compile and
Register does not install the prometheus handler as written. -/
theorem apigateway_metrics_selector_unresolved :
    (∃ r ∈ vaultRouter, r.verb = "GET" ∧ r.path = "/metrics" ∧
      r.handler = .promhttpHandler) ∧
    registerMetricsSelectorPkg ∉ apigatewayImportedNames ∧
    (∃ r ∈ registerRoutes, r.verb = "GET" ∧ r.path = "/metrics" ∧
      r.handlerPkg ∉ apigatewayImportedNames) := by
  decide

/-- The statements of main in program order (server.go lines 34-111), at the
granularity the claims need. -/
inductive StartupStep
  | parseFlags
  | buildLogger
  | buildMetrics
  | buildServiceChain
  | makeErrChan
  | launchSignalWatcher
  | buildEndpoints
  | callInitJaeger
  | setGlobalTracer
  | startServerSpan
  | launchHTTPListener
  | launchGRPCListener
  | awaitErrChan
  deriving DecidableEq

/-- main executes its statements in this order (server.go: flags 34-37,
logger 40-43, metrics 45-63, service chain 65-67, errChan 68, signal
goroutine 70-74, endpoints 75-80, initJaeger 82, SetGlobalTracer 84, server
span 85, HTTP goroutine 88-94, gRPC goroutine 96-108, fatal receive 111). -/
def mainStartupOrder : List StartupStep :=
  [.parseFlags, .buildLogger, .buildMetrics, .buildServiceChain, .makeErrChan,
   .launchSignalWatcher, .buildEndpoints, .callInitJaeger, .setGlobalTracer,
   .startServerSpan, .launchHTTPListener, .launchGRPCListener, .awaitErrChan]

/-- The statements main has already executed when initJaeger runs: a panic
inside initJaeger aborts startup right there, so exactly this prefix has
happened. -/
def stepsBeforeJaeger : List StartupStep :=
  mainStartupOrder.takeWhile (fun s => s ≠ .callInitJaeger)

/-- The jaeger sampler configuration block (server.go lines 117-120). -/
structure JaegerSamplerConfig where
  kind : String
  param : Nat
  deriving DecidableEq

/-- The jaeger client configuration built by initJaeger (lines 116-125). -/
structure JaegerConfiguration where
  sampler : JaegerSamplerConfig
  logSpans : Bool
  serviceName : String
  deriving DecidableEq

/-- A constructed tracer, carrying the configuration it was built from. -/
structure JaegerTracer where
  cfg : JaegerConfiguration
  deriving DecidableEq

/-- Outcome of initJaeger: either a runtime panic aborting the program, or
the tracer. -/
inductive InitJaegerResult
  | panicked (msg : String)
  | ok (t : JaegerTracer)
  deriving DecidableEq

/-- The configuration literal of initJaeger (server.go lines 116-125): a
const sampler with parameter 1 and LogSpans false. -/
def jaegerConfigFor (service : String) : JaegerConfiguration :=
  ⟨⟨"const", 1⟩, false, service⟩

/-- initJaeger (server.go lines 115-131): build the configuration, call
cfg.NewTracer (external library, passed in as a function), panic on error,
return the tracer otherwise. -/
def initJaeger (service : String)
    (newTracer : JaegerConfiguration → Except String JaegerTracer) :
    InitJaegerResult :=
  match newTracer (jaegerConfigFor service) with
  | .error e => .panicked ("ERROR: cannot init Jaeger: " ++ e)
  | .ok t => .ok t

/-- A jaeger tracer whose sampler has type const and parameter 1 samples
every trace, as the doc comment of initJaeger (line 114) also states. -/
def samplesAllTraces (t : JaegerTracer) : Prop :=
  t.cfg.sampler.kind = "const" ∧ t.cfg.sampler.param = 1

/-- C10 counterexample: main launches the OS-signal watcher (line 70) before
it calls initJaeger (line 82), so a panic inside initJaeger does not abort
startup before the signal watcher is launched: the watcher launch is in the
already-executed prefix. -/
theorem signal_watcher_launched_before_initJaeger :
    StartupStep.launchSignalWatcher ∈ stepsBeforeJaeger ∧
      StartupStep.launchHTTPListener ∉ stepsBeforeJaeger ∧
      StartupStep.launchGRPCListener ∉ stepsBeforeJaeger := by
  decide

/-- C10 amended: if jaeger tracer construction returns an error, initJaeger
panics, aborting startup before either listener goroutine is launched (the
OS-signal watcher, however, has already been launched at that point); on
success initJaeger returns the constructed tracer, which is configured with
a const sampler of parameter 1 and hence samples 100 percent of traces. -/
theorem initJaeger_panic_aborts_before_listeners (service : String)
    (newTracer : JaegerConfiguration → Except String JaegerTracer)
    (hbuilds : ∀ c t, newTracer c = .ok t → t.cfg = c) :
    (∀ e, newTracer (jaegerConfigFor service) = .error e →
      initJaeger service newTracer =
          .panicked ("ERROR: cannot init Jaeger: " ++ e) ∧
        StartupStep.launchHTTPListener ∉ stepsBeforeJaeger ∧
        StartupStep.launchGRPCListener ∉ stepsBeforeJaeger ∧
        StartupStep.launchSignalWatcher ∈ stepsBeforeJaeger) ∧
    (∀ t, newTracer (jaegerConfigFor service) = .ok t →
      initJaeger service newTracer = .ok t ∧ samplesAllTraces t) := by
  constructor
  · intro e he
    refine ⟨?_, by decide, by decide, by decide⟩
    simp [initJaeger, he]
  · intro t ht
    have hc := hbuilds _ _ ht
    refine ⟨by simp [initJaeger, ht], ?_, ?_⟩ <;>
      simp [hc, jaegerConfigFor]

/-- C10 witness: a concrete successful tracer construction for vaultService,
instantiating the amended theorem. -/
theorem initJaeger_panic_aborts_before_listeners_witness :
    (∀ e, (fun c => (Except.ok ⟨c⟩ : Except String JaegerTracer))
        (jaegerConfigFor "vaultService") = .error e →
      initJaeger "vaultService" (fun c => .ok ⟨c⟩) =
          .panicked ("ERROR: cannot init Jaeger: " ++ e) ∧
        StartupStep.launchHTTPListener ∉ stepsBeforeJaeger ∧
        StartupStep.launchGRPCListener ∉ stepsBeforeJaeger ∧
        StartupStep.launchSignalWatcher ∈ stepsBeforeJaeger) ∧
    (∀ t, (fun c => (Except.ok ⟨c⟩ : Except String JaegerTracer))
        (jaegerConfigFor "vaultService") = .ok t →
      initJaeger "vaultService" (fun c => .ok ⟨c⟩) = .ok t ∧
        samplesAllTraces t) :=
  initJaeger_panic_aborts_before_listeners "vaultService" (fun c => .ok ⟨c⟩)
    (fun c t h => by
      simp only [Except.ok.injEq] at h
      rw [← h])

/-!
Part 4: the apigateway HTTP binder (src/apigateway/http_server.go lines
17-46).  The DTO types loginRequest and loginResponse and the function
decodeLoginRequest belong to the apigateway package but are not under src/,
so they are modelled from the spec; HandleLoginPost, respondError and
respondSuccess are translated from the source.  Go dynamic typing
(interface values and the type assertions of lines 23 and 28) is modelled
by the sum type GoValue.
-/

/-- The request context stored in the Endpoints value (field Ctx). -/
abbrev Ctx := Unit

/-- Modelled from the spec: the login request DTO, plain data carrying the
input fields of the operation. -/
structure LoginRequest where
  username : String
  password : String
  deriving DecidableEq

/-- Modelled from the spec: the login response DTO, plain data carrying the
output field of the operation. -/
structure LoginResponse where
  token : String
  deriving DecidableEq

/-- A Go interface value as it flows through decode and endpoint: its
dynamic type is a login request, a login response, or something else
(including nil). -/
inductive GoValue
  | loginReq (r : LoginRequest)
  | loginResp (r : LoginResponse)
  | nilValue
  deriving DecidableEq

/-- A Go error value as produced by errors.New or fmt.Errorf: a pointer to a
struct whose only field, the message, is unexported, and which has no
MarshalJSON method. -/
structure GoErrVal where
  msg : String
  deriving DecidableEq

/-- The JSON value written for one entry of the error envelope. -/
inductive JsonValue
  | str (s : String)
  | num (n : Int)
  | emptyObj
  deriving DecidableEq

/-- encoding/json marshals a Go error value by reflecting over its exported
fields; errors.New and fmt.Errorf values have none and no custom marshaller,
so the encoder emits the empty JSON object for them. -/
def jsonOfGoError (_ : GoErrVal) : JsonValue := .emptyObj

/-- net/http StatusText for the codes this binder can produce. -/
def statusText (c : Int) : String :=
  if c = 500 then "Internal Server Error"
  else if c = 400 then "Bad Request"
  else if c = 200 then "OK"
  else ""

/-- The JSON body written by respondError (http_server.go lines 32-40): the
map with keys error, status_code and status_text; Go serialises map keys in
sorted order, which is the field order here. -/
structure ErrorBody where
  errorVal : JsonValue
  status_code : Int
  status_text : String
  deriving DecidableEq

/-- respondError (http_server.go lines 32-40): write header code, then encode
the map with the error value itself under error, the code under status_code
and the matching status text under status_text. -/
def respondError (code : Int) (err : GoErrVal) : ErrorBody :=
  ⟨jsonOfGoError err, code, statusText code⟩

/-- What the handler writes to the ResponseWriter: an error envelope with an
explicit status, a success body with the implicit 200 status, or a Go panic
from a failed type assertion (the response is then aborted). -/
inductive HttpReply
  | errorResp (status : Int) (body : ErrorBody)
  | successResp (body : LoginResponse)
  | panicked (msg : String)
  deriving DecidableEq

/-- The body of an inbound POST /v1/login request: either a well-formed JSON
login payload or malformed bytes. -/
inductive RequestBody
  | jsonLogin (username password : String)
  | malformed (raw : String)
  deriving DecidableEq

/-- An inbound HTTP request, reduced to what the handler reads from it. -/
structure HttpRequest where
  body : RequestBody
  deriving DecidableEq

/-- Modelled from the spec: decodeLoginRequest (apigateway package, not under
src/) decodes the JSON body into the login request DTO and reports malformed
payloads as an error, following the Go (value, error) convention. -/
def decodeLoginRequest (_ : Ctx) (r : HttpRequest) : GoValue × Option GoErrVal :=
  match r.body with
  | .jsonLogin u p => (.loginReq ⟨u, p⟩, none)
  | .malformed _ => (.nilValue, some ⟨"invalid character in request body"⟩)

/-- The Endpoints value of the apigateway binder: its context and the login
endpoint, a transport-neutral function from an interface-typed request to an
interface-typed response and an error. -/
structure Endpoints where
  ctx : Ctx
  LoginEndpoint : Ctx → GoValue → GoValue × Option GoErrVal

/-- What one invocation of HandleLoginPost does: the reply written and how
many times the login endpoint was invoked. -/
structure HandlerOutcome where
  reply : HttpReply
  endpointCalls : Nat
  deriving DecidableEq

/-- HandleLoginPost (http_server.go lines 17-29), statement by statement:
decode; on decode error respondError(500) and return; otherwise assert the
decoded value to loginRequest (a panic if the assertion fails) and invoke the
endpoint; on endpoint error respondError(500) and return; otherwise assert
the response to loginResponse (again a panic on failure) and respondSuccess. -/
def HandleLoginPost (e : Endpoints) (r : HttpRequest) : HandlerOutcome :=
  let dres := decodeLoginRequest e.ctx r
  match dres.2 with
  | some err => ⟨.errorResp 500 (respondError 500 err), 0⟩
  | none =>
    match dres.1 with
    | .loginReq lr =>
      let eres := e.LoginEndpoint e.ctx (.loginReq lr)
      match eres.2 with
      | some err => ⟨.errorResp 500 (respondError 500 err), 1⟩
      | none =>
        match eres.1 with
        | .loginResp resp => ⟨.successResp resp, 1⟩
        | _ => ⟨.panicked "interface conversion: interface is not loginResponse", 1⟩
    | _ => ⟨.panicked "interface conversion: interface is not loginRequest", 0⟩

/-- A capability that always fails with the message of the spec scenario. -/
def invalidCredentialsEndpoints : Endpoints :=
  ⟨(), fun _ _ => (.nilValue, some ⟨"invalid credentials"⟩)⟩

/-- The scenario request of the spec: POST /v1/login with username a and
password p. -/
def scenarioRequest : HttpRequest := ⟨.jsonLogin "a" "p"⟩

/-- A malformed POST /v1/login request body. -/
def malformedRequest : HttpRequest := ⟨.malformed "not json"⟩

/-- C3: on the scenario input (valid login body, capability error invalid
credentials) the handler does respond with status 500, status_code 500 and
status_text Internal Server Error, but the error field of the body is the
empty JSON object, not the message string: respondError passes the Go error
value itself to the JSON encoder, which marshals it as an object with no
fields, so the claimed body is not produced. -/
theorem respondError_encodes_error_as_empty_object :
    HandleLoginPost invalidCredentialsEndpoints scenarioRequest =
      ⟨.errorResp 500 ⟨.emptyObj, 500, "Internal Server Error"⟩, 1⟩ ∧
    (respondError 500 ⟨"invalid credentials"⟩).errorVal ≠
      .str "invalid credentials" := by
  decide

/-- Whether an HTTP status code is client-class (4xx). -/
def isClientStatus (c : Int) : Prop := 400 ≤ c ∧ c < 500

instance (c : Int) : Decidable (isClientStatus c) := by
  unfold isClientStatus; infer_instance

/-- C4 counterexample: on a malformed body the handler responds with status
500, which is not a client-class (4xx) status, so the decode failure is not
reported as a client-class error; the endpoint is indeed never invoked. -/
theorem decode_failure_status_not_client :
    (HandleLoginPost invalidCredentialsEndpoints malformedRequest).reply =
      .errorResp 500
        ⟨.emptyObj, 500, "Internal Server Error"⟩ ∧
    ¬ isClientStatus 500 ∧
    (HandleLoginPost invalidCredentialsEndpoints malformedRequest).endpointCalls
      = 0 := by
  decide

/-- C4 amended: for every POST /v1/login request whose body fails to decode,
the binder reports an error to the caller with status 500 (a server-class,
not client-class, status) and returns without invoking the LoginEndpoint:
the malformed request never reaches the endpoint or the capability. -/
theorem decode_failure_skips_endpoint (e : Endpoints) (r : HttpRequest)
    (err : GoErrVal) (hdec : (decodeLoginRequest e.ctx r).2 = some err) :
    (HandleLoginPost e r).reply = .errorResp 500 (respondError 500 err) ∧
    ¬ isClientStatus 500 ∧
    (HandleLoginPost e r).endpointCalls = 0 := by
  rcases hd : decodeLoginRequest e.ctx r with ⟨dv, derr⟩
  rw [hd] at hdec
  simp only at hdec
  subst hdec
  exact ⟨by simp [HandleLoginPost, hd], by decide, by simp [HandleLoginPost, hd]⟩

/-- C4 witness: the amended theorem at the concrete malformed request. -/
theorem decode_failure_skips_endpoint_witness :
    (decodeLoginRequest invalidCredentialsEndpoints.ctx malformedRequest).2 =
      some ⟨"invalid character in request body"⟩ ∧
    ((HandleLoginPost invalidCredentialsEndpoints malformedRequest).reply =
      .errorResp 500
        (respondError 500 ⟨"invalid character in request body"⟩) ∧
    ¬ isClientStatus 500 ∧
    (HandleLoginPost invalidCredentialsEndpoints malformedRequest).endpointCalls
      = 0) :=
  ⟨rfl, decode_failure_skips_endpoint invalidCredentialsEndpoints
    malformedRequest ⟨"invalid character in request body"⟩ rfl⟩

/-- C9: under the preconditions that decodeLoginRequest yields a loginRequest
whenever its error is nil and that the endpoint yields a loginResponse
whenever its error is nil, the type-assertion panic branches of
HandleLoginPost are unreachable, and every request whose decode and endpoint
call both succeed receives the success response. -/
theorem handler_type_assertions_safe (e : Endpoints) (r : HttpRequest)
    (hdec : ∀ v, decodeLoginRequest e.ctx r = (v, none) →
      ∃ lr, v = .loginReq lr)
    (hend : ∀ v resp, e.LoginEndpoint e.ctx v = (resp, none) →
      ∃ out, resp = .loginResp out) :
    (∀ m, (HandleLoginPost e r).reply ≠ .panicked m) ∧
    ((decodeLoginRequest e.ctx r).2 = none →
      (e.LoginEndpoint e.ctx (decodeLoginRequest e.ctx r).1).2 = none →
      ∃ out, (HandleLoginPost e r).reply = .successResp out) := by
  unfold HandleLoginPost
  rcases hd : decodeLoginRequest e.ctx r with ⟨dv, derr⟩
  cases derr with
  | some err => exact ⟨fun m => by simp, fun h _ => by simp at h⟩
  | none =>
    obtain ⟨lr, hlr⟩ := hdec dv hd
    subst hlr
    rcases he : e.LoginEndpoint e.ctx (.loginReq lr) with ⟨ev, eerr⟩
    cases eerr with
    | some err =>
        exact ⟨fun m => by simp [he], fun _ h => by simp at h⟩
    | none =>
        obtain ⟨out, hout⟩ := hend _ ev he
        subst hout
        exact ⟨fun m => by simp [he], fun _ _ => ⟨out, by simp [he]⟩⟩

/-- A login endpoint that always succeeds with a fixed token. -/
def tokenEndpoints : Endpoints :=
  ⟨(), fun _ _ => (.loginResp ⟨"tok"⟩, none)⟩

/-- C9 witness: the theorem at the concrete always-succeeding endpoint and
the scenario request, with both preconditions discharged. -/
theorem handler_type_assertions_safe_witness :
    (∀ m, (HandleLoginPost tokenEndpoints scenarioRequest).reply ≠
      .panicked m) ∧
    ((decodeLoginRequest tokenEndpoints.ctx scenarioRequest).2 = none →
      (tokenEndpoints.LoginEndpoint tokenEndpoints.ctx
        (decodeLoginRequest tokenEndpoints.ctx scenarioRequest).1).2 = none →
      ∃ out, (HandleLoginPost tokenEndpoints scenarioRequest).reply =
        .successResp out) :=
  handler_type_assertions_safe tokenEndpoints scenarioRequest
    (fun v h => by
      simp only [decodeLoginRequest, scenarioRequest, Prod.mk.injEq] at h
      exact ⟨⟨"a", "p"⟩, h.1.symm⟩)
    (fun v resp h => by
      simp only [tokenEndpoints, Prod.mk.injEq] at h
      exact ⟨⟨"tok"⟩, h.1.symm⟩)
